import Mathlib

/-!
Verification development for the Lottie adapter of Project-X-VFX
(`lottieAdapter.js`): provider search normalization, retry helper, asset
location, content-addressed compression/storage and manifest construction.

The JavaScript source is shallowly embedded: JavaScript values are modelled
by the inductive `JVal` (with explicit `undefined`/`null`), the `||` / `&&`
operators by `jor` / `jand` over JavaScript truthiness, and the effectful
library calls (node-fetch, `JSON.parse`/`JSON.stringify`, `zlib.gzip`,
`crypto` sha1, S3 uploads, the filesystem) by oracles carried in an `Env`
record.  Each fetch oracle is indexed by the invocation number so that
retry behaviour is observable.  File and S3 writes are recorded in an
explicit event trace.
-/

namespace LottieAdapter

/-- Model of a JavaScript value, with `undefined` and `null` kept distinct
(the distinction matters to the normalizer, whose fields can end up
`undefined`, i.e. omitted on serialization, rather than an explicit `null`). -/
inductive JVal where
  | undef
  | null
  | bool (b : Bool)
  | num (n : Int)
  | str (s : String)
  | arr (elems : List JVal)
  | obj (fields : List (String × JVal))

/-- JavaScript truthiness of a value (`undefined`, `null`, `false`, `0` and
the empty string are falsy; arrays and objects are always truthy). -/
def truthy : JVal → Bool
  | .undef => false
  | .null => false
  | .bool b => b
  | .num n => n != 0
  | .str s => !s.isEmpty
  | .arr _ => true
  | .obj _ => true

/-- Property access `v[k]`: the first binding of `k` on an object, and
`undefined` on everything else.  The source only dereferences non-objects
behind `&&` guards or optional chaining, where JavaScript also yields
`undefined`, so this total model agrees with the source on every path the
adapter takes. -/
def jget : JVal → String → JVal
  | .obj fs, k =>
    match fs.find? (fun kv => kv.1 == k) with
    | some kv => kv.2
    | none => .undef
  | _, _ => (.undef)

/-- JavaScript `a || b`. -/
def jor (a b : JVal) : JVal := if truthy a then a else b

/-- JavaScript `a && b`. -/
def jand (a b : JVal) : JVal := if truthy a then b else a

mutual
/-- JavaScript `String(v)` coercion. -/
def jToString : JVal → String
  | .undef => "undefined"
  | .null => "null"
  | .bool b => cond b "true" "false"
  | .num n => toString n
  | .str s => s
  | .arr xs => jArrToString xs
  | .obj _ => "[object Object]"

/-- Array-to-string: elements joined by commas (Array.prototype.toString). -/
def jArrToString : List JVal → String
  | [] => ""
  | [x] => jArrElemToString x
  | x :: y :: xs => jArrElemToString x ++ "," ++ jArrToString (y :: xs)

/-- Inside an array join, `undefined` and `null` render as the empty string;
every other value renders as its `String(...)` coercion. -/
def jArrElemToString : JVal → String
  | .undef => ""
  | .null => ""
  | .bool b => cond b "true" "false"
  | .num n => toString n
  | .str s => s
  | .arr xs => jArrToString xs
  | .obj _ => "[object Object]"
end

mutual
/-- Structural equality of JavaScript values, used to model `Set` membership
in the candidate-URL dedup (candidates there are strings, where `Set`
equality is exactly string equality). -/
def jvalBeq : JVal → JVal → Bool
  | .undef, .undef => true
  | .null, .null => true
  | .bool a, .bool b => a == b
  | .num a, .num b => a == b
  | .str a, .str b => a == b
  | .arr xs, .arr ys => jvalListBeq xs ys
  | .obj xs, .obj ys => jvalObjBeq xs ys
  | _, _ => false

/-- Pointwise equality of value lists. -/
def jvalListBeq : List JVal → List JVal → Bool
  | [], [] => true
  | x :: xs, y :: ys => jvalBeq x y && jvalListBeq xs ys
  | _, _ => false

/-- Pointwise equality of object field lists. -/
def jvalObjBeq : List (String × JVal) → List (String × JVal) → Bool
  | [], [] => true
  | (k1, v1) :: xs, (k2, v2) :: ys => k1 == k2 && jvalBeq v1 v2 && jvalObjBeq xs ys
  | _, _ => false
end

instance : BEq JVal := ⟨jvalBeq⟩

/-- Elements of an array value; the source only maps over values that are
arrays on every executed path. -/
def jElems : JVal → List JVal
  | .arr xs => xs
  | _ => []

/-- Outcome of a `fetch` that resolved: `ok` flag, HTTP status and body. -/
structure HttpResp where
  ok : Bool
  status : Nat
  body : String

/-- Errors thrown by the adapter (`Error` values in the source, tagged here
by the site that constructs them; the carried data mirrors the message and
the ad-hoc `err.status` property). -/
inductive AdapterError where
  | configError
  | searchFailed (status : Nat) (body : String)
  | detailFailed (status : Nat) (body : String)
  | fetchRejected (msg : String)
  | bodyParseError (msg : String)
  | noDownloadableAsset
  | downloadError (msg : String)
  | invalidJson (msg : String)
  | storageWriteFailed (msg : String)

/-- Environment and effect oracles for one adapter call.  Fetch oracles are
indexed by invocation number (0, 1, 2, ...).  `stringify`, `gzipBytes` and
`sha1hex` stand for `JSON.stringify`, `zlib.gzip` and the sha1 hex digest:
external, deterministic library functions taken as parameters of the model. -/
structure Env where
  lottieApiKey : Option String
  s3Bucket : Option String
  awsRegion : Option String
  searchFetch : Nat → Except String HttpResp
  detailFetch : Nat → Except String HttpResp
  downloadFetch : Nat → Except String HttpResp
  jsonParse : String → Except String JVal
  stringify : JVal → String
  gzipBytes : String → List Nat
  sha1hex : List Nat → String
  s3SendOk : String → String → List Nat → Except String Unit
  now : String

/-- The `retry` loop of the source, with the `while (true)` rendered
structurally: `fuel` counts the failures still allowed before rethrowing
(`times - 1 - attempt` in terms of the source's counters), `attempt` is the
0-based invocation number fed to the oracle.  Returns the result together
with the total number of invocations performed. -/
def retryFuel {ε α : Type} (fn : Nat → Except ε α) : Nat → Nat → Except ε α × Nat
  | fuel, attempt =>
    match fn attempt with
    | .ok a => (.ok a, attempt + 1)
    | .error e =>
      match fuel with
      | 0 => (.error e, attempt + 1)
      | k + 1 => retryFuel fn k (attempt + 1)

/-- Model of `retry(fn, times, delayMs)`: run `fn`, retrying on failure until
`times` attempts have failed, then propagate the last error unchanged.  The
backoff delay (`delayMs * attempt`) only suspends the task and is not
modelled.  Also returns how many times `fn` was invoked. -/
def retry {ε α : Type} (fn : Nat → Except ε α) (times : Nat) : Except ε α × Nat :=
  retryFuel fn (times - 1) 0

/-- Metadata sub-record of a normalized search result. -/
structure SearchMeta where
  duration_ms : JVal
  frames : JVal

/-- One normalized search result, mirroring the object literal built in
`searchLottieFiles` (fields that the source can leave `undefined` are kept
as `JVal`). -/
structure SearchResult where
  provider : String
  providerId : String
  title : JVal
  type : String
  thumbnail : JVal
  preview : JVal
  license : JVal
  tags : JVal
  score : JVal
  meta : SearchMeta

/-- The normalized search response envelope. -/
structure SearchResponse where
  query : String
  page : JVal
  per_page : JVal
  total : JVal
  results : List SearchResult

/-- Normalization of one raw search item (the body of the `.map` callback in
`searchLottieFiles`), translated field by field. -/
def normalizeItem (item : JVal) : SearchResult :=
  { provider := "lottiefiles"
    providerId := jToString (jor (jor (jor (jget item "id") (jget item "_id")) (jget item "uid")) (jget item "uuid"))
    title := jor (jor (jget item "title") (jget item "name")) (.str "Lottie")
    type := "lottie"
    thumbnail := jor (jor (jget item "thumbnail") (jget item "preview"))
      (jand (jget item "images") (jget (jget item "images") "thumbnail"))
    preview := jor (jor (jget item "preview") (jget (jget (jget item "files") "json") "url")) .null
    license := jor (jor (jand (jget item "license") (jget (jget item "license") "name")) (jget item "license")) (.str "unknown")
    tags := jor (jor (jget item "tags") (jand (jget item "meta") (jget (jget item "meta") "tags"))) (.arr [])
    score := .num 1
    meta := { duration_ms := jor (jor (jget item "duration_ms") (jget item "duration")) .null
              frames := jor (jget item "frames") .null } }

/-- Normalization of the whole provider search response (the tail of
`searchLottieFiles` after the HTTP phase). -/
def normalizeSearch (json : JVal) (query : String) (page per_page : Int) : SearchResponse :=
  let items := (jElems (jor (jget json "data") (.arr []))).map normalizeItem
  { query := query
    page := jor (jget json "page") (.num page)
    per_page := jor (jget json "per_page") (.num per_page)
    total := jor (jget json "total") (.num (items.length : Int))
    results := items }

/-- Model of `searchLottieFiles(query, {page, per_page})`: credential check,
then `retry(() => fetch(url), 3, 300)` (only a rejected fetch makes an
attempt fail; a resolved response is returned as-is), then the `res.ok`
check, `res.json()` and normalization.  The second component is the number
of fetch invocations performed. -/
def searchLottieFiles (env : Env) (query : String) (page per_page : Int) :
    Except AdapterError SearchResponse × Nat :=
  match env.lottieApiKey with
  | none => (.error .configError, 0)
  | some _ =>
    match retry env.searchFetch 3 with
    | (.error e, n) => (.error (.fetchRejected e), n)
    | (.ok res, n) =>
      if !res.ok then
        (.error (.searchFailed res.status res.body), n)
      else
        match env.jsonParse res.body with
        | .error msg => (.error (.bodyParseError msg), n)
        | .ok json => (.ok (normalizeSearch json query page per_page), n)

/-- Candidates pushed for one entry of `detail.files`: skip a falsy entry,
else push `entry.url` and `entry.download_url` when truthy. -/
def entryCandidateUrls (entry : JVal) : List JVal :=
  if truthy entry then
    (if truthy (jget entry "url") then [jget entry "url"] else []) ++
      (if truthy (jget entry "download_url") then [jget entry "download_url"] else [])
  else []

/-- A top-level singular field is pushed when truthy. -/
def pushIfTruthy (v : JVal) : List JVal :=
  if truthy v then [v] else []

/-- Candidate URL collection of the import path (step 2 of
`importLottieAnimation`): every `files` entry's `url` and `download_url`,
then the top-level `animation_url`, `download_url` and `preview`
fallbacks, in source order.  `Object.keys` enumerates object keys in
insertion order and array indices in order, so an array-valued `files`
contributes its elements as entries; on a truthy string it enumerates the
single-character entries, whose `url` is `undefined`, and other truthy
primitives have no enumerable keys — hence the empty contribution for
those. -/
def collectCandidateUrls (detail : JVal) : List JVal :=
  (if truthy (jget detail "files") then
    match jget detail "files" with
    | .obj fs => (fs.map (fun kv => entryCandidateUrls kv.2)).flatten
    | .arr xs => (xs.map entryCandidateUrls).flatten
    | _ => []
  else [])
  ++ pushIfTruthy (jget detail "animation_url")
  ++ pushIfTruthy (jget detail "download_url")
  ++ pushIfTruthy (jget detail "preview")

/-- First-seen-order deduplication, modelling `[...new Set(xs)]`. -/
def jsSetDedup (seen : List JVal) : List JVal → List JVal
  | [] => []
  | x :: xs => if seen.contains x then jsSetDedup seen xs else x :: jsSetDedup (x :: seen) xs

/-- Steps 2 of the import: collect candidates, dedup, `filter(Boolean)`,
and fail with the no-downloadable-asset error when nothing is left. -/
def locateDownloadUrls (detail : JVal) : Except AdapterError (List JVal) :=
  let urls := (jsSetDedup [] (collectCandidateUrls detail)).filter truthy
  if urls.isEmpty then .error .noDownloadableAsset else .ok urls

/-- JavaScript `s.endsWith(pat)`, modelled on the character lists. -/
def strEndsWith (s pat : String) : Bool := pat.data.isSuffixOf s.data

/-- Whether `pat` occurs as a contiguous subsequence of the second list. -/
def containsSeq (pat : List Char) : List Char → Bool
  | [] => pat.isEmpty
  | c :: cs => pat.isPrefixOf (c :: cs) || containsSeq pat cs

/-- JavaScript `s.includes(pat)`, modelled on the character lists. -/
def strIncludes (s pat : String) : Bool := containsSeq pat.data s.data

/-- The `u.endsWith('.json') || u.includes('json')` predicate used to pick a
likely JSON URL.  A non-string candidate cannot satisfy it (in the source
it would throw; candidates are strings on every executed path). -/
def isLikelyJsonUrl : JVal → Bool
  | .str s => strEndsWith s ".json" || strIncludes s "json"
  | _ => false

/-- `urls.find(u => ...) || urls[0]`. -/
def pickJsonUrl (urls : List JVal) : JVal :=
  match urls.find? isLikelyJsonUrl with
  | some u => u
  | none => (urls.headD .undef)

/-- Options of `importLottieAnimation`. -/
structure ImportOptions where
  generateTemplate : Bool
  targetS3Bucket : Option String

/-- One phase of the generated default sequence template (`time` is a
number or the string `'onImpact'`; `duration` only present on the first
phase). -/
structure Phase where
  time : JVal
  action : String
  effect : String
  pos : String
  duration : Option Nat

/-- The generated default sequence template record. -/
structure SequenceTemplate where
  name : String
  phases : List Phase
  notes : String

/-- Helper `manifestIdFrom(providerId, hash)`. -/
def manifestIdFrom (providerId hsh : String) : String :=
  "lottie_import_" ++ providerId ++ "_" ++ hsh

/-- The fixed three-phase default template (`generateDefaultSequenceTemplate`). -/
def generateDefaultSequenceTemplate (effectId : String) : SequenceTemplate :=
  { name := effectId
    phases := [
      { time := .num 0, action := "spawn", effect := "lottie_charge", pos := "attacker", duration := some 600 },
      { time := .num 600, action := "spawn", effect := "lottie_projectile", pos := "towards_target", duration := none },
      { time := .str "onImpact", action := "spawn", effect := "lottie_impact", pos := "target", duration := none } ]
    notes := "Automatically generated template for imported Lottie. Edit in UI if you want bespoke timing." }

/-- One entry of `requiredAssets`. -/
structure AssetRef where
  name : String
  type : String
  mime : String
  url : String
  localPath : String
  size : Nat
  etag : String

/-- The `source` sub-record of the manifest. -/
structure SourceRef where
  provider : String
  providerId : String

/-- The import manifest returned on success. -/
structure ImportManifest where
  id : String
  displayName : JVal
  version : JVal
  license : JVal
  source : SourceRef
  requiredAssets : List AssetRef
  sequenceTemplate : Option SequenceTemplate
  importedAt : String
  rawDetail : JVal

/-- Side effects of one import call, in order: detail-fetch invocations,
download invocations (with the chosen URL), the unconditional local cache
write, and the S3 put when the remote backend is configured. -/
inductive Event where
  | fetchDetail
  | fetchDownload (url : JVal)
  | localWrite (path : String) (bytes : List Nat)
  | s3Put (bucket : String) (key : String) (bytes : List Nat)

/-- The content hash: first 12 hex characters of the sha1 digest of the
compressed bytes (`createHash('sha1').update(gz).digest('hex').slice(0, 12)`,
taken character-wise on the digest string). -/
def contentHashOf (env : Env) (gz : List Nat) : String :=
  ((env.sha1hex gz).data.take 12).asString

/-- The storage filename scheme `lottie_${providerId}_${hash}.json.gz`. -/
def outNameFor (providerId hsh : String) : String :=
  "lottie_" ++ providerId ++ "_" ++ hsh ++ ".json.gz"

/-- Filename produced for a given canonicalized (minified) payload:
compression and hashing happen after canonicalization. -/
def storageFilename (env : Env) (providerId : String) (minified : String) : String :=
  outNameFor providerId (contentHashOf env (env.gzipBytes minified))

/-- The local cache directory (`DEFAULT_CACHE_DIR`, relative to the module). -/
def cacheDir : String := "cache/lottie"

/-- UTF-8 bytes of one character. -/
def utf8BytesOfChar (c : Char) : List Nat :=
  let n := c.toNat
  if n < 128 then [n]
  else if n < 2048 then [192 + n / 64, 128 + n % 64]
  else if n < 65536 then [224 + n / 4096, 128 + (n / 64) % 64, 128 + n % 64]
  else [240 + n / 262144, 128 + (n / 4096) % 64, 128 + (n / 64) % 64, 128 + n % 64]

/-- Upper-case hex digit. -/
def hexDigitUpper (n : Nat) : String :=
  String.singleton (if n < 10 then Char.ofNat (48 + n) else Char.ofNat (55 + n))

/-- Bytes that `encodeURIComponent` leaves unescaped:
`A-Z a-z 0-9 - _ . ! ~ * ' ( )`. -/
def isUnreservedUriByte (b : Nat) : Bool :=
  (65 ≤ b && b ≤ 90) || (97 ≤ b && b ≤ 122) || (48 ≤ b && b ≤ 57) ||
    b == 45 || b == 95 || b == 46 || b == 33 || b == 126 || b == 42 ||
    b == 39 || b == 40 || b == 41

/-- Model of `encodeURIComponent`: percent-encode every UTF-8 byte outside
the unreserved set. -/
def encodeURIComponent (s : String) : String :=
  String.join ((s.data.map utf8BytesOfChar).flatten.map (fun b =>
    if isUnreservedUriByte b then String.singleton (Char.ofNat b)
    else "%" ++ hexDigitUpper (b / 16) ++ hexDigitUpper (b % 16)))

/-- One attempt of the download step (step 3): the retried closure itself
rejects on a non-success status (`download failed ${status}`), unlike the
search/detail requests where the status check sits outside the retry. -/
def downloadAttempt (env : Env) (n : Nat) : Except String String :=
  match env.downloadFetch n with
  | .error e => .error e
  | .ok r => if !r.ok then .error ("download failed " ++ toString r.status) else .ok r.body

/-- Step 7 of the import: the manifest object literal. -/
def buildManifest (env : Env) (providerId : String) (options : ImportOptions) (detail : JVal)
    (hsh outName localPath remoteUrl : String) (gz : List Nat) : ImportManifest :=
  { id := "lottie_import_" ++ providerId ++ "_" ++ hsh
    displayName := jor (jor (jget detail "title") (jget detail "name")) (.str ("Lottie " ++ providerId))
    version := jor (jget detail "version") (.str "1")
    license := jor (jor (jand (jget detail "license") (jget (jget detail "license") "name")) (jget detail "license")) (.str "unknown")
    source := { provider := "lottiefiles", providerId := providerId }
    requiredAssets := [
      { name := outName, type := "lottie", mime := "application/json",
        url := remoteUrl, localPath := localPath, size := gz.length, etag := hsh } ]
    sequenceTemplate :=
      if options.generateTemplate then some (generateDefaultSequenceTemplate (manifestIdFrom providerId hsh)) else none
    importedAt := env.now
    rawDetail := detail }

/-- Model of `importLottieAnimation(providerId, options)`: credential check;
detail fetch via `retry` (status checked after the retry); `res.json()`;
candidate-URL location; download via `retry` (status checked inside the
retried closure); JSON validation; minify, gzip, hash; unconditional local
cache write; S3 upload when configured (else a `file://` reference); and
the manifest build.  The second component is the ordered event trace. -/
def importLottieAnimation (env : Env) (providerId : String) (options : ImportOptions) :
    Except AdapterError ImportManifest × List Event :=
  match env.lottieApiKey with
  | none => (.error .configError, [])
  | some _ =>
    match retry env.detailFetch 3 with
    | (.error e, n) => (.error (.fetchRejected e), List.replicate n .fetchDetail)
    | (.ok detailRes, n) =>
      if !detailRes.ok then
        (.error (.detailFailed detailRes.status detailRes.body), List.replicate n .fetchDetail)
      else
        match env.jsonParse detailRes.body with
        | .error msg => (.error (.bodyParseError msg), List.replicate n .fetchDetail)
        | .ok detail =>
          match locateDownloadUrls detail with
          | .error e => (.error e, List.replicate n .fetchDetail)
          | .ok urls =>
            let jsonUrl := pickJsonUrl urls
            match retry (downloadAttempt env) 3 with
            | (.error e, m) =>
              (.error (.downloadError e),
                List.replicate n .fetchDetail ++ List.replicate m (.fetchDownload jsonUrl))
            | (.ok body, m) =>
              match env.jsonParse body with
              | .error msg =>
                (.error (.invalidJson ("Downloaded file is not valid JSON: " ++ msg)),
                  List.replicate n .fetchDetail ++ List.replicate m (.fetchDownload jsonUrl))
              | .ok parsed =>
                let minified := env.stringify parsed
                let gz := env.gzipBytes minified
                let hsh := contentHashOf env gz
                let outName := outNameFor providerId hsh
                let localPath := cacheDir ++ "/" ++ outName
                let evs := List.replicate n Event.fetchDetail ++
                  List.replicate m (Event.fetchDownload jsonUrl) ++
                  [Event.localWrite localPath gz]
                match env.s3Bucket with
                | some envBucket =>
                  let bucket :=
                    match options.targetS3Bucket with
                    | some b => if b.isEmpty then envBucket else b
                    | none => envBucket
                  let keyName := "lottie/" ++ outName
                  match env.s3SendOk bucket keyName gz with
                  | .error e => (.error (.storageWriteFailed e), evs ++ [Event.s3Put bucket keyName gz])
                  | .ok _ =>
                    let remoteUrl := "https://" ++ bucket ++ ".s3." ++
                      (env.awsRegion.getD "us-east-1") ++ ".amazonaws.com/" ++ encodeURIComponent keyName
                    (.ok (buildManifest env providerId options detail hsh outName localPath remoteUrl gz),
                      evs ++ [Event.s3Put bucket keyName gz])
                | none =>
                  let remoteUrl := "file://" ++ localPath
                  (.ok (buildManifest env providerId options detail hsh outName localPath remoteUrl gz), evs)

/-! Concrete environments used by counterexamples and witnesses. -/

/-- Baseline concrete environment: credential configured, no S3, all
fetches reject at the network level. -/
def envBase : Env :=
  { lottieApiKey := some "k"
    s3Bucket := none
    awsRegion := none
    searchFetch := fun _ => .error "network error"
    detailFetch := fun _ => .error "network error"
    downloadFetch := fun _ => .error "network error"
    jsonParse := fun _ => .error "Unexpected end of JSON input"
    stringify := fun _ => ""
    gzipBytes := fun _ => []
    sha1hex := fun _ => ""
    s3SendOk := fun _ _ _ => .ok ()
    now := "2026-10-11T00:00:00.000Z" }

/-- Environment whose search and detail requests always resolve with
HTTP 500 and body `"boom"`. -/
def env500 : Env := { envBase with
  searchFetch := fun _ => .ok { ok := false, status := 500, body := "boom" }
  detailFetch := fun _ => .ok { ok := false, status := 500, body := "boom" } }

/-- Default import options: no template, no bucket override. -/
def opts0 : ImportOptions := { generateTemplate := false, targetS3Bucket := none }

/-- Provider response with 2 items and `total: 0` present. -/
def jsonTotZero : JVal := .obj [("data", .arr [.obj [], .obj []]), ("total", .num 0)]

/-- Provider response with 2 items and no `total` field. -/
def jsonTwoItems : JVal := .obj [("data", .arr [.obj [], .obj []])]

/-- Existence of a URL-shaped field, written after the words of the spec:
some `files` entry — a value of an object-valued `files`, or an element of
an array-valued `files` (`Object.keys` enumerates array indices) — carries
a (truthy) `url` or `download_url`, or one of the top-level
`animation_url`, `download_url`, `preview` fields is a (truthy) value.
This definition follows the claim's enumeration and is compared against
the locator translated from the source. -/
def hasUrlShapedField (detail : JVal) : Bool :=
  (match jget detail "files" with
    | .obj fs => fs.any (fun kv => truthy (jget kv.2 "url") || truthy (jget kv.2 "download_url"))
    | .arr xs => xs.any (fun e => truthy (jget e "url") || truthy (jget e "download_url"))
    | _ => false)
  || truthy (jget detail "animation_url")
  || truthy (jget detail "download_url")
  || truthy (jget detail "preview")

/-- Detail object exposing only a top-level `preview` URL. -/
def detailPreviewOnly : JVal := .obj [("preview", .str "https://x/p")]

/-- Detail object whose `files` field is an array of entries (its indices
are enumerated by `Object.keys` just like object keys). -/
def detailFilesArr : JVal := .obj [("files", .arr [.obj [("url", .str "https://x/a.json")]])]

/-- Hexadecimal digit predicate on characters. -/
def isHexDigitChar (c : Char) : Bool :=
  c.isDigit || (97 ≤ c.toNat && c.toNat ≤ 102) || (65 ≤ c.toNat && c.toNat ≤ 70)

/-- Environment on which an import succeeds: the detail body "D" parses to
a detail object with only a `preview` URL, every downloaded body parses to
the number 1, canonicalization yields the two-byte string of braces,
compression is modelled as the byte-length singleton and the digest oracle
returns sixteen `a` characters. -/
def env2c : Env := { envBase with
  detailFetch := fun _ => .ok { ok := true, status := 200, body := "D" }
  downloadFetch := fun _ => .ok { ok := true, status := 200, body := "B" }
  jsonParse := fun s => if s = "D" then .ok (.obj [("preview", .str "https://x/a.json")]) else .ok (.num 1)
  stringify := fun _ => "\x7b\x7d"
  gzipBytes := fun s => [s.length]
  sha1hex := fun _ => "aaaaaaaaaaaaaaaa" }

/-- The same environment with the remote (S3) backend configured. -/
def env6 : Env := { env2c with s3Bucket := some "bkt" }

/-- Import options with template generation enabled. -/
def opts1 : ImportOptions := { generateTemplate := true, targetS3Bucket := none }

/-- The required-asset entry produced by the `env2c` import of `"abc"`. -/
def asset7 : AssetRef :=
  { name := "lottie_abc_aaaaaaaaaaaa.json.gz", type := "lottie", mime := "application/json",
    url := "file://cache/lottie/lottie_abc_aaaaaaaaaaaa.json.gz",
    localPath := "cache/lottie/lottie_abc_aaaaaaaaaaaa.json.gz", size := 1, etag := "aaaaaaaaaaaa" }

/-- The same entry when the upload went to the remote backend. -/
def asset6 : AssetRef :=
  { asset7 with url := "https://bkt.s3.us-east-1.amazonaws.com/lottie%2Flottie_abc_aaaaaaaaaaaa.json.gz" }

/-- Manifest produced by `importLottieAnimation env2c "abc" opts1`. -/
def manifest7 : ImportManifest :=
  { id := "lottie_import_abc_aaaaaaaaaaaa"
    displayName := .str "Lottie abc"
    version := .str "1"
    license := .str "unknown"
    source := { provider := "lottiefiles", providerId := "abc" }
    requiredAssets := [asset7]
    sequenceTemplate := some (generateDefaultSequenceTemplate "lottie_import_abc_aaaaaaaaaaaa")
    importedAt := "2026-10-11T00:00:00.000Z"
    rawDetail := .obj [("preview", .str "https://x/a.json")] }

/-- Manifest of the same run without template generation. -/
def manifest10 : ImportManifest := { manifest7 with sequenceTemplate := none }

/-- Manifest of the same run against the remote backend. -/
def manifest6 : ImportManifest := { manifest10 with requiredAssets := [asset6] }

/-- Event trace of `importLottieAnimation env2c "abc" _`. -/
def events7 : List Event :=
  [.fetchDetail, .fetchDownload (.str "https://x/a.json"),
    .localWrite "cache/lottie/lottie_abc_aaaaaaaaaaaa.json.gz" [2]]

/-- Event trace of `importLottieAnimation env6 "abc" opts0`. -/
def events6 : List Event :=
  events7 ++ [.s3Put "bkt" "lottie/lottie_abc_aaaaaaaaaaaa.json.gz" [2]]

/-- Event trace of `importLottieAnimation env2c "ABC" opts0`. -/
def eventsABC : List Event :=
  [.fetchDetail, .fetchDownload (.str "https://x/a.json"),
    .localWrite "cache/lottie/lottie_ABC_aaaaaaaaaaaa.json.gz" [2]]

/-- Names of the assets of an import outcome (empty on failure). -/
def importAssetNames (r : Except AdapterError ImportManifest × List Event) : List String :=
  match r.1 with
  | .ok m => m.requiredAssets.map (fun a => a.name)
  | .error _ => []

/-! Retry executor lemmas. -/

/-- When the operation fails on every invocation, the fuelled loop consumes
all its fuel, invoking the operation once per remaining unit of fuel plus
one, and propagates the error of the last invocation. -/
theorem retryFuel_allfail {ε α : Type} (fn : Nat → Except ε α) (errs : Nat → ε)
    (hfail : ∀ n, fn n = .error (errs n)) :
    ∀ fuel attempt, retryFuel fn fuel attempt = (.error (errs (attempt + fuel)), attempt + fuel + 1) := by
  intro fuel
  induction fuel with
  | zero =>
    intro attempt
    rw [retryFuel, hfail attempt]
    simp
  | succ k ih =>
    intro attempt
    rw [retryFuel, hfail attempt]
    have h := ih (attempt + 1)
    have harith : attempt + 1 + k = attempt + (k + 1) := by omega
    rw [harith] at h
    exact h

/-- C3: for every operation handed to the retry executor with a positive
maximum attempt count, if the operation fails on every invocation then it
is invoked exactly that many times and the error finally propagated is the
very error value of the last attempt, not a synthesized or wrapping error. -/
theorem C3_retry_exhaustion {ε α : Type} (fn : Nat → Except ε α) (errs : Nat → ε) (times : Nat)
    (hfail : ∀ n, fn n = .error (errs n)) (hpos : 1 ≤ times) :
    retry fn times = (.error (errs (times - 1)), times) := by
  unfold retry
  rw [retryFuel_allfail fn errs hfail (times - 1) 0]
  have h1 : 0 + (times - 1) = times - 1 := by omega
  have h2 : times - 1 + 1 = times := by omega
  rw [h1, h2]

/-- Witness for C3 at `times = 3` with the operation failing with its own
invocation index: three invocations, and the propagated error is the third
attempt's error value `2`. -/
theorem C3_retry_exhaustion_witness :
    1 ≤ 3 ∧ retry (fun n => (Except.error n : Except Nat Unit)) 3 = (Except.error 2, 3) :=
  ⟨by decide,
    C3_retry_exhaustion (fun n => (Except.error n : Except Nat Unit)) (fun n => n) 3
      (fun _ => rfl) (by decide)⟩

/-! C1: HTTP status handling of the search and detail requests. -/

/-- C1 (counterexample): with a provider that always answers the search and
detail requests with HTTP 500, the claim that a non-success status is
retried up to 3 times is false at this input: the fetch promise resolves,
so the retry wrapper returns after a single invocation (not 3) and the
failure is surfaced immediately with status and body. -/
theorem C1_counterexample :
    searchLottieFiles env500 "fire" 1 24 = (.error (.searchFailed 500 "boom"), 1)
    ∧ (importLottieAnimation env500 "abc" opts0).1 = .error (.detailFailed 500 "boom")
    ∧ (importLottieAnimation env500 "abc" opts0).2 = [Event.fetchDetail]
    ∧ (1 : Nat) ≠ 3 :=
  ⟨rfl, rfl, rfl, by decide⟩

/-- C1 (amended): a non-success HTTP status on the provider search or
detail request is not a retryable failure: the resolved response makes the
single wrapped attempt succeed, so the request is issued exactly once and
the failure, carrying the status code and response body, is surfaced to
the caller immediately (only network-level fetch rejections are retried). -/
theorem C1_amended_status_not_retried (env1 env2 : Env) (q : String) (p pp : Int)
    (pid : String) (opts : ImportOptions) (resp1 resp2 : HttpResp) (k1 k2 : String)
    (h1 : env1.lottieApiKey = some k1) (h2 : env1.searchFetch 0 = .ok resp1) (h3 : resp1.ok = false)
    (h4 : env2.lottieApiKey = some k2) (h5 : env2.detailFetch 0 = .ok resp2) (h6 : resp2.ok = false) :
    searchLottieFiles env1 q p pp = (.error (.searchFailed resp1.status resp1.body), 1)
    ∧ importLottieAnimation env2 pid opts = (.error (.detailFailed resp2.status resp2.body), [Event.fetchDetail]) := by
  constructor
  · simp [searchLottieFiles, retry, retryFuel, h1, h2, h3]
  · simp [importLottieAnimation, retry, retryFuel, h4, h5, h6]

/-- Witness for the amended C1 at the concrete HTTP-500 environment. -/
theorem C1_amended_witness :
    searchLottieFiles env500 "fire" 1 24 = (.error (.searchFailed 500 "boom"), 1)
    ∧ importLottieAnimation env500 "abc" opts0 = (.error (.detailFailed 500 "boom"), [Event.fetchDetail]) :=
  C1_amended_status_not_retried env500 env500 "fire" 1 24 "abc" opts0
    { ok := false, status := 500, body := "boom" } { ok := false, status := 500, body := "boom" }
    "k" "k" rfl rfl rfl rfl rfl rfl

/-! C4, C8, C9: result normalizer. -/

/-- C4 (counterexample): on a raw item with every field absent, the
normalized `thumbnail` is `undefined` (the `||` chain has no `null`
fallback), which is an omitted field on serialization — refuting the claim
that every absent optional field becomes an explicit empty value and is
never undefined. -/
theorem C4_counterexample :
    (normalizeItem (JVal.obj [])).thumbnail = JVal.undef ∧ JVal.undef ≠ JVal.null :=
  ⟨rfl, fun h => nomatch h⟩

/-- C4 (amended): for every raw search item, normalization succeeds (it is
total); with title and name missing the title defaults to "Lottie", a
missing license defaults to "unknown", missing tags to the empty array,
and the absent optional fields preview, duration and frames become explicit
`null` — but an absent thumbnail (with no preview or images either) stays
`undefined`, i.e. an omitted field, not an explicit `null`. -/
theorem C4_amended_defaults (item : JVal)
    (ht : jget item "title" = .undef) (hn : jget item "name" = .undef)
    (hl : jget item "license" = .undef)
    (htag : jget item "tags" = .undef) (hm : jget item "meta" = .undef)
    (hth : jget item "thumbnail" = .undef) (hp : jget item "preview" = .undef)
    (him : jget item "images" = .undef) (hf : jget item "files" = .undef)
    (hd : jget item "duration_ms" = .undef) (hdu : jget item "duration" = .undef)
    (hfr : jget item "frames" = .undef) :
    (normalizeItem item).title = .str "Lottie"
    ∧ (normalizeItem item).license = .str "unknown"
    ∧ (normalizeItem item).tags = .arr []
    ∧ (normalizeItem item).preview = .null
    ∧ (normalizeItem item).meta.duration_ms = .null
    ∧ (normalizeItem item).meta.frames = .null
    ∧ (normalizeItem item).thumbnail = .undef := by
  unfold normalizeItem
  rw [ht, hn, hl, htag, hm, hth, hp, him, hf, hd, hdu, hfr]
  simp [jor, jand, truthy, jget]

/-- Witness for the amended C4 at the empty raw item. -/
theorem C4_amended_witness :
    (normalizeItem (JVal.obj [])).title = .str "Lottie"
    ∧ (normalizeItem (JVal.obj [])).license = .str "unknown"
    ∧ (normalizeItem (JVal.obj [])).tags = .arr []
    ∧ (normalizeItem (JVal.obj [])).preview = .null
    ∧ (normalizeItem (JVal.obj [])).meta.duration_ms = .null
    ∧ (normalizeItem (JVal.obj [])).meta.frames = .null
    ∧ (normalizeItem (JVal.obj [])).thumbnail = .undef :=
  C4_amended_defaults (JVal.obj []) rfl rfl rfl rfl rfl rfl rfl rfl rfl rfl rfl rfl

/-- C8 (counterexample): a provider response with 2 items that supplies
`total: 0` — a present provider total — normalizes to `total == 2`, not
the provider-supplied value, because `json.total || items.length` treats
any falsy total as absent. -/
theorem C8_counterexample :
    jget jsonTotZero "total" = JVal.num 0
    ∧ (normalizeSearch jsonTotZero "fire" 1 24).total = JVal.num 2
    ∧ JVal.num 2 ≠ JVal.num 0 :=
  ⟨rfl, rfl, fun h => by injection h with h; exact absurd h (by decide)⟩

/-- C8 (amended): `total` is the provider-supplied total when that value is
present and truthy, and falls back to the observed result count when the
provider omits it (or supplies any falsy value, such as 0). -/
theorem C8_amended_total (json : JVal) (q : String) (p pp : Int) :
    (truthy (jget json "total") = true → (normalizeSearch json q p pp).total = jget json "total")
    ∧ (truthy (jget json "total") = false →
        (normalizeSearch json q p pp).total = .num ((normalizeSearch json q p pp).results.length : Int)) := by
  constructor
  · intro h
    simp [normalizeSearch, jor, h]
  · intro h
    simp [normalizeSearch, jor, h]

/-- Witness for the amended C8: search("fire", page 1, pageSize 24) against
a provider response with 2 items and no total field yields total == 2. -/
theorem C8_amended_witness :
    truthy (jget jsonTwoItems "total") = false
    ∧ (normalizeSearch jsonTwoItems "fire" 1 24).total = JVal.num 2 :=
  ⟨rfl, (C8_amended_total jsonTwoItems "fire" 1 24).2 rfl⟩

/-- C9: a raw search item carrying none of the identifier fields (id, _id,
uid, uuid) still normalizes (the embedding is total, mirroring that the
source does not throw), and its providerId is the literal string
"undefined", the string coercion of a missing value. -/
theorem C9_providerId_undefined (item : JVal)
    (h1 : jget item "id" = .undef) (h2 : jget item "_id" = .undef)
    (h3 : jget item "uid" = .undef) (h4 : jget item "uuid" = .undef) :
    (normalizeItem item).providerId = "undefined" := by
  unfold normalizeItem
  rw [h1, h2, h3, h4]
  simp [jor, truthy, jToString]

/-- Witness for C9 at the empty raw item. -/
theorem C9_witness : (normalizeItem (JVal.obj [])).providerId = "undefined" :=
  C9_providerId_undefined (JVal.obj []) rfl rfl rfl rfl

/-! C5: asset locator. -/

/-- A value with no JavaScript truthiness is never an object, so property
access on it yields `undefined`. -/
theorem jget_of_falsy (v : JVal) (k : String) (h : truthy v = false) : jget v k = .undef := by
  cases v <;> simp_all [truthy, jget]

/-- Candidates contributed by one `files` entry are all truthy (each was
pushed behind an `if`). -/
theorem mem_entryCandidateUrls (e v : JVal) (h : v ∈ entryCandidateUrls e) : truthy v = true := by
  unfold entryCandidateUrls at h
  by_cases h1 : truthy e = true
  · rw [if_pos h1, List.mem_append] at h
    rcases h with h | h
    · by_cases h2 : truthy (jget e "url") = true
      · rw [if_pos h2, List.mem_singleton] at h
        rw [h]; exact h2
      · rw [if_neg h2] at h
        exact absurd h (List.not_mem_nil v)
    · by_cases h3 : truthy (jget e "download_url") = true
      · rw [if_pos h3, List.mem_singleton] at h
        rw [h]; exact h3
      · rw [if_neg h3] at h
        exact absurd h (List.not_mem_nil v)
  · rw [if_neg h1] at h
    exact absurd h (List.not_mem_nil v)

/-- One `files` entry contributes no candidate exactly when neither its
`url` nor its `download_url` is truthy (the entry-truthiness guard of the
source is redundant: a falsy entry has no truthy fields). -/
theorem entryCandidateUrls_eq_nil_iff (e : JVal) :
    entryCandidateUrls e = [] ↔ (truthy (jget e "url") || truthy (jget e "download_url")) = false := by
  unfold entryCandidateUrls
  by_cases h1 : truthy e = true
  · rw [if_pos h1]
    by_cases h2 : truthy (jget e "url") = true <;> by_cases h3 : truthy (jget e "download_url") = true <;>
      simp [h2, h3]
  · have he : truthy e = false := by
      cases h : truthy e
      · rfl
      · exact absurd h h1
    rw [if_neg h1, jget_of_falsy e "url" he, jget_of_falsy e "download_url" he]
    simp [truthy]

/-- A top-level field contributes no candidate exactly when it is falsy. -/
theorem pushIfTruthy_eq_nil_iff (v : JVal) :
    pushIfTruthy v = [] ↔ truthy v = false := by
  unfold pushIfTruthy
  cases h : truthy v <;> simp [h]

/-- Every collected candidate is truthy. -/
theorem mem_collectCandidateUrls (d v : JVal) (h : v ∈ collectCandidateUrls d) : truthy v = true := by
  unfold collectCandidateUrls at h
  rw [List.mem_append, List.mem_append, List.mem_append] at h
  have hpush : ∀ w : JVal, v ∈ pushIfTruthy w → truthy v = true := by
    intro w hw
    unfold pushIfTruthy at hw
    by_cases ht : truthy w = true
    · rw [if_pos ht, List.mem_singleton] at hw
      rw [hw]; exact ht
    · rw [if_neg ht] at hw
      exact absurd hw (List.not_mem_nil v)
  rcases h with ((h | h) | h) | h
  · by_cases hf : truthy (jget d "files") = true
    · rw [if_pos hf] at h
      cases hjf : jget d "files" with
      | obj fs =>
        rw [hjf] at h
        rw [List.mem_flatten] at h
        rcases h with ⟨l, hl, hv⟩
        rw [List.mem_map] at hl
        rcases hl with ⟨kv, _, rfl⟩
        exact mem_entryCandidateUrls kv.2 v hv
      | undef => rw [hjf] at h; exact absurd h (List.not_mem_nil v)
      | null => rw [hjf] at h; exact absurd h (List.not_mem_nil v)
      | bool b => rw [hjf] at h; exact absurd h (List.not_mem_nil v)
      | num n => rw [hjf] at h; exact absurd h (List.not_mem_nil v)
      | str s => rw [hjf] at h; exact absurd h (List.not_mem_nil v)
      | arr xs =>
        rw [hjf] at h
        rw [List.mem_flatten] at h
        rcases h with ⟨l, hl, hv⟩
        rw [List.mem_map] at hl
        rcases hl with ⟨e, _, rfl⟩
        exact mem_entryCandidateUrls e v hv
    · rw [if_neg hf] at h
      exact absurd h (List.not_mem_nil v)
  · exact hpush _ h
  · exact hpush _ h
  · exact hpush _ h

/-- The collected candidate list is empty exactly when the detail object
has no URL-shaped field in the sense of the specification. -/
theorem collectCandidateUrls_eq_nil_iff (d : JVal) :
    collectCandidateUrls d = [] ↔ hasUrlShapedField d = false := by
  have truthy_obj : ∀ fs : List (String × JVal), truthy (JVal.obj fs) = true := fun _ => rfl
  have truthy_arr : ∀ xs : List JVal, truthy (JVal.arr xs) = true := fun _ => rfl
  unfold collectCandidateUrls hasUrlShapedField
  cases hjf : jget d "files" with
  | obj fs =>
    simp only [truthy_obj, if_true, List.append_eq_nil, List.flatten_eq_nil_iff,
      Bool.or_eq_false_iff, pushIfTruthy_eq_nil_iff, List.any_eq_false]
    constructor
    · rintro ⟨⟨⟨hfl, h2⟩, h3⟩, h4⟩
      refine ⟨⟨⟨?_, h2⟩, h3⟩, h4⟩
      intro kv hkv
      have := hfl (entryCandidateUrls kv.2) (List.mem_map_of_mem _ hkv)
      rw [entryCandidateUrls_eq_nil_iff] at this
      simp [this]
    · rintro ⟨⟨⟨hfl, h2⟩, h3⟩, h4⟩
      refine ⟨⟨⟨?_, h2⟩, h3⟩, h4⟩
      intro l hl
      rw [List.mem_map] at hl
      rcases hl with ⟨kv, hkv, rfl⟩
      rw [entryCandidateUrls_eq_nil_iff]
      have := hfl kv hkv
      simpa using this
  | undef =>
    simp [pushIfTruthy_eq_nil_iff, List.append_eq_nil, Bool.or_eq_false_iff, and_assoc]
  | null =>
    simp [pushIfTruthy_eq_nil_iff, List.append_eq_nil, Bool.or_eq_false_iff, and_assoc]
  | bool b =>
    simp [pushIfTruthy_eq_nil_iff, List.append_eq_nil, Bool.or_eq_false_iff, and_assoc]
  | num n =>
    simp [pushIfTruthy_eq_nil_iff, List.append_eq_nil, Bool.or_eq_false_iff, and_assoc]
  | str s =>
    simp [pushIfTruthy_eq_nil_iff, List.append_eq_nil, Bool.or_eq_false_iff, and_assoc]
  | arr xs =>
    simp only [truthy_arr, if_true, List.append_eq_nil, List.flatten_eq_nil_iff,
      Bool.or_eq_false_iff, pushIfTruthy_eq_nil_iff, List.any_eq_false]
    constructor
    · rintro ⟨⟨⟨hfl, h2⟩, h3⟩, h4⟩
      refine ⟨⟨⟨?_, h2⟩, h3⟩, h4⟩
      intro e he
      have := hfl (entryCandidateUrls e) (List.mem_map_of_mem _ he)
      rw [entryCandidateUrls_eq_nil_iff] at this
      simp [this]
    · rintro ⟨⟨⟨hfl, h2⟩, h3⟩, h4⟩
      refine ⟨⟨⟨?_, h2⟩, h3⟩, h4⟩
      intro l hl
      rw [List.mem_map] at hl
      rcases hl with ⟨e, he, rfl⟩
      rw [entryCandidateUrls_eq_nil_iff]
      have := hfl e he
      simpa using this

/-- Deduplication never invents elements. -/
theorem mem_jsSetDedup (seen l : List JVal) (v : JVal) (h : v ∈ jsSetDedup seen l) : v ∈ l := by
  induction l generalizing seen with
  | nil => rw [jsSetDedup] at h; exact h
  | cons x xs ih =>
    rw [jsSetDedup] at h
    by_cases hc : seen.contains x = true
    · rw [if_pos hc] at h
      exact List.mem_cons_of_mem x (ih seen h)
    · rw [if_neg hc] at h
      rcases List.mem_cons.mp h with h | h
      · rw [h]; exact List.mem_cons_self x xs
      · exact List.mem_cons_of_mem x (ih (x :: seen) h)

/-- Deduplication with an empty seen-set is empty exactly on the empty list. -/
theorem jsSetDedup_nil_iff (l : List JVal) : jsSetDedup [] l = [] ↔ l = [] := by
  cases l with
  | nil => simp [jsSetDedup]
  | cons x xs => simp [jsSetDedup]

/-- C5: the locator fails with the no-downloadable-asset error exactly when
the provider detail object contains no URL-shaped field anywhere (no
`files` entry with a truthy `url` or `download_url` and no truthy
top-level `animation_url`, `download_url` or `preview`); whenever at least
one such field exists, it returns a non-empty candidate list instead. -/
theorem C5_locate_iff_urlShaped (detail : JVal) :
    (locateDownloadUrls detail = .error .noDownloadableAsset ↔ hasUrlShapedField detail = false)
    ∧ (hasUrlShapedField detail = true →
        ∃ l, locateDownloadUrls detail = .ok l ∧ l ≠ []) := by
  have hall : ∀ v ∈ jsSetDedup [] (collectCandidateUrls detail), truthy v = true :=
    fun v hv => mem_collectCandidateUrls detail v (mem_jsSetDedup [] _ v hv)
  have hfilter : (jsSetDedup [] (collectCandidateUrls detail)).filter truthy
      = jsSetDedup [] (collectCandidateUrls detail) :=
    List.filter_eq_self.mpr hall
  unfold locateDownloadUrls
  rw [hfilter]
  constructor
  · constructor
    · intro h
      by_cases hemp : (jsSetDedup [] (collectCandidateUrls detail)).isEmpty = true
      · rw [List.isEmpty_iff] at hemp
        rw [jsSetDedup_nil_iff] at hemp
        rw [← collectCandidateUrls_eq_nil_iff]
        exact hemp
      · rw [if_neg hemp] at h
        exact absurd h (by simp)
    · intro h
      rw [← collectCandidateUrls_eq_nil_iff] at h
      have : jsSetDedup [] (collectCandidateUrls detail) = [] := by
        rw [h]; rfl
      rw [this]
      rfl
  · intro h
    have hne : collectCandidateUrls detail ≠ [] := by
      intro hnil
      rw [collectCandidateUrls_eq_nil_iff] at hnil
      rw [h] at hnil
      exact Bool.noConfusion hnil
    have hdne : jsSetDedup [] (collectCandidateUrls detail) ≠ [] := by
      intro hnil
      exact hne ((jsSetDedup_nil_iff _).mp hnil)
    have hempf : (jsSetDedup [] (collectCandidateUrls detail)).isEmpty = false := by
      rw [List.isEmpty_eq_false]
      exact hdne
    rw [if_neg (by simp [hempf])]
    exact ⟨_, rfl, hdne⟩

/-- Witness for C5: a detail object with only a top-level `preview` URL has
a URL-shaped field and yields a non-empty candidate list; so does one
whose `files` is an array with one `url`-bearing entry; and the empty
detail object fails with the no-downloadable-asset error. -/
theorem C5_witness :
    hasUrlShapedField detailPreviewOnly = true
    ∧ (∃ l, locateDownloadUrls detailPreviewOnly = .ok l ∧ l ≠ [])
    ∧ hasUrlShapedField detailFilesArr = true
    ∧ (∃ l, locateDownloadUrls detailFilesArr = .ok l ∧ l ≠ [])
    ∧ locateDownloadUrls (JVal.obj []) = .error .noDownloadableAsset :=
  ⟨rfl, (C5_locate_iff_urlShaped detailPreviewOnly).2 rfl,
    rfl, (C5_locate_iff_urlShaped detailFilesArr).2 rfl,
    (C5_locate_iff_urlShaped (JVal.obj [])).1.mpr rfl⟩

/-! C2, C6, C7, C10: the import pipeline. -/

/-- Length of the character-wise prefix of a string. -/
theorem asString_take_length (l : List Char) (n : Nat) (h : n ≤ l.length) :
    (l.take n).asString.length = n := by
  show (l.take n).length = n
  simp [List.length_take]
  omega

/-- Characterization of a successful import: the returned manifest is the
built manifest for the parsed payload's canonical form, and the event
trace contains the local cache write of the compressed bytes at the
content-addressed filename. -/
theorem importOk_spec (env : Env) (pid : String) (opts : ImportOptions)
    (m : ImportManifest) (evs : List Event)
    (h : importLottieAnimation env pid opts = (.ok m, evs)) :
    ∃ detail parsed remoteUrl,
      m = buildManifest env pid opts detail
            (contentHashOf env (env.gzipBytes (env.stringify parsed)))
            (outNameFor pid (contentHashOf env (env.gzipBytes (env.stringify parsed))))
            (cacheDir ++ "/" ++ outNameFor pid (contentHashOf env (env.gzipBytes (env.stringify parsed))))
            remoteUrl (env.gzipBytes (env.stringify parsed))
      ∧ Event.localWrite
          (cacheDir ++ "/" ++ outNameFor pid (contentHashOf env (env.gzipBytes (env.stringify parsed))))
          (env.gzipBytes (env.stringify parsed)) ∈ evs := by
  simp only [importLottieAnimation] at h
  split at h
  · simp at h
  · split at h
    · simp at h
    · split at h
      · simp at h
      · split at h
        · simp at h
        · split at h
          · simp at h
          · split at h
            · simp at h
            · split at h
              · simp at h
              · split at h
                · split at h
                  · simp at h
                  · rw [Prod.mk.injEq] at h
                    obtain ⟨h1, h2⟩ := h
                    rw [Except.ok.injEq] at h1
                    refine ⟨_, _, _, h1.symm, ?_⟩
                    rw [← h2]
                    simp
                · rw [Prod.mk.injEq] at h
                  obtain ⟨h1, h2⟩ := h
                  rw [Except.ok.injEq] at h1
                  refine ⟨_, _, _, h1.symm, ?_⟩
                  rw [← h2]
                  simp

/-- C6: on every successful import — whatever the storage configuration,
including a configured remote backend with a successful upload — the
compressed payload `gz` is written to the local cache file
`lottie_{providerId}_{contentHash(gz)}.json.gz`; the local write is not
merely the fallback of the no-remote configuration. -/
theorem C6_local_write_unconditional (env : Env) (pid : String) (opts : ImportOptions)
    (m : ImportManifest) (evs : List Event)
    (h : importLottieAnimation env pid opts = (.ok m, evs)) :
    ∃ gz, Event.localWrite (cacheDir ++ "/" ++ outNameFor pid (contentHashOf env gz)) gz ∈ evs := by
  obtain ⟨detail, parsed, remoteUrl, hm, hmem⟩ := importOk_spec env pid opts m evs h
  exact ⟨env.gzipBytes (env.stringify parsed), hmem⟩

/-- Witness for C6 on an environment with the remote backend configured and
the upload succeeding: the local cache write still happens. -/
theorem C6_witness :
    ∃ gz, Event.localWrite (cacheDir ++ "/" ++ outNameFor "abc" (contentHashOf env6 gz)) gz
      ∈ (importLottieAnimation env6 "abc" opts0).2 :=
  C6_local_write_unconditional env6 "abc" opts0 manifest6 events6 rfl

/-- C7: on every successful import, `sequenceTemplate` is `none` unless the
caller opts in via `generateTemplate`, in which case it is the fixed
three-phase default — charge at time 0 (duration 600), projectile at time
600, impact on `'onImpact'` — whose name is the manifest's derived
identifier `lottie_import_{providerId}_{contentHash}`. -/
theorem C7_sequence_template (env : Env) (pid : String) (opts : ImportOptions)
    (m : ImportManifest) (evs : List Event)
    (h : importLottieAnimation env pid opts = (.ok m, evs)) :
    m.sequenceTemplate = (if opts.generateTemplate then some (generateDefaultSequenceTemplate m.id) else none)
    ∧ (∃ hsh, m.id = "lottie_import_" ++ pid ++ "_" ++ hsh)
    ∧ (generateDefaultSequenceTemplate m.id).name = m.id
    ∧ (generateDefaultSequenceTemplate m.id).phases = [
        { time := .num 0, action := "spawn", effect := "lottie_charge", pos := "attacker", duration := some 600 },
        { time := .num 600, action := "spawn", effect := "lottie_projectile", pos := "towards_target", duration := none },
        { time := .str "onImpact", action := "spawn", effect := "lottie_impact", pos := "target", duration := none } ] := by
  obtain ⟨detail, parsed, remoteUrl, hm, _⟩ := importOk_spec env pid opts m evs h
  subst hm
  exact ⟨rfl, ⟨contentHashOf env (env.gzipBytes (env.stringify parsed)), rfl⟩, rfl, rfl⟩

/-- Witness for C7 at a concrete successful import with template generation
enabled. -/
theorem C7_witness :
    manifest7.sequenceTemplate
        = (if opts1.generateTemplate then some (generateDefaultSequenceTemplate manifest7.id) else none)
    ∧ (∃ hsh, manifest7.id = "lottie_import_" ++ "abc" ++ "_" ++ hsh)
    ∧ (generateDefaultSequenceTemplate manifest7.id).name = manifest7.id
    ∧ (generateDefaultSequenceTemplate manifest7.id).phases = [
        { time := .num 0, action := "spawn", effect := "lottie_charge", pos := "attacker", duration := some 600 },
        { time := .num 600, action := "spawn", effect := "lottie_projectile", pos := "towards_target", duration := none },
        { time := .str "onImpact", action := "spawn", effect := "lottie_impact", pos := "target", duration := none } ] :=
  C7_sequence_template env2c "abc" opts1 manifest7 events7 rfl

/-- C10: every manifest returned by a successful import has exactly one
entry in `requiredAssets`; its name is the storage filename
`lottie_{providerId}_{contentHash}.json.gz`, its size is the byte length of
the compressed payload (the very bytes written to the cache), its etag is
the contentHash (the first 12 characters of the digest of the compressed
bytes — 12 characters long whenever the digest has at least 12, and hex
whenever the digest is hex). -/
theorem C10_required_assets (env : Env) (pid : String) (opts : ImportOptions)
    (m : ImportManifest) (evs : List Event)
    (h : importLottieAnimation env pid opts = (.ok m, evs)) :
    ∃ gz r, m.requiredAssets = [r]
      ∧ r.name = outNameFor pid (contentHashOf env gz)
      ∧ r.size = gz.length
      ∧ r.etag = contentHashOf env gz
      ∧ Event.localWrite (cacheDir ++ "/" ++ r.name) gz ∈ evs
      ∧ (12 ≤ (env.sha1hex gz).length → r.etag.length = 12)
      ∧ ((∀ c ∈ (env.sha1hex gz).data, isHexDigitChar c) → ∀ c ∈ r.etag.data, isHexDigitChar c) := by
  obtain ⟨detail, parsed, remoteUrl, hm, hmem⟩ := importOk_spec env pid opts m evs h
  subst hm
  refine ⟨env.gzipBytes (env.stringify parsed),
    { name := outNameFor pid (contentHashOf env (env.gzipBytes (env.stringify parsed))),
      type := "lottie", mime := "application/json", url := remoteUrl,
      localPath := cacheDir ++ "/" ++ outNameFor pid (contentHashOf env (env.gzipBytes (env.stringify parsed))),
      size := (env.gzipBytes (env.stringify parsed)).length,
      etag := contentHashOf env (env.gzipBytes (env.stringify parsed)) },
    rfl, rfl, rfl, rfl, hmem, ?_, ?_⟩
  · intro hlen
    exact asString_take_length (env.sha1hex (env.gzipBytes (env.stringify parsed))).data 12 hlen
  · intro hhex c hc
    exact hhex c (List.mem_of_mem_take hc)

/-- Witness for C10 at a concrete successful import. -/
theorem C10_witness :
    ∃ gz r, manifest10.requiredAssets = [r]
      ∧ r.name = outNameFor "abc" (contentHashOf env2c gz)
      ∧ r.size = gz.length
      ∧ r.etag = contentHashOf env2c gz
      ∧ Event.localWrite (cacheDir ++ "/" ++ r.name) gz ∈ events7
      ∧ (12 ≤ (env2c.sha1hex gz).length → r.etag.length = 12)
      ∧ ((∀ c ∈ (env2c.sha1hex gz).data, isHexDigitChar c) → ∀ c ∈ r.etag.data, isHexDigitChar c) :=
  C10_required_assets env2c "abc" opts0 manifest10 events7 rfl

/-- C2 (counterexample): two import calls whose canonicalized payload bytes
are bit-identical (both runs compress the same canonical form and write
the same bytes `[2]`) but whose providerIds differ only in casing produce
different storage filenames, because the filename scheme
`lottie_{providerId}_{hash}.json.gz` embeds the providerId verbatim. -/
theorem C2_counterexample :
    importAssetNames (importLottieAnimation env2c "abc" opts0) = ["lottie_abc_aaaaaaaaaaaa.json.gz"]
    ∧ importAssetNames (importLottieAnimation env2c "ABC" opts0) = ["lottie_ABC_aaaaaaaaaaaa.json.gz"]
    ∧ (importLottieAnimation env2c "abc" opts0).2 = events7
    ∧ (importLottieAnimation env2c "ABC" opts0).2 = eventsABC
    ∧ events7.getLast? = some (.localWrite "cache/lottie/lottie_abc_aaaaaaaaaaaa.json.gz" [2])
    ∧ eventsABC.getLast? = some (.localWrite "cache/lottie/lottie_ABC_aaaaaaaaaaaa.json.gz" [2])
    ∧ "lottie_abc_aaaaaaaaaaaa.json.gz" ≠ "lottie_ABC_aaaaaaaaaaaa.json.gz" :=
  ⟨rfl, rfl, rfl, rfl, rfl, rfl, by decide⟩

/-- C2 (amended): the storage filename depends on the canonicalized
(minified) payload bytes only through the content hash, which is computed
after canonicalization — so two imports of the same providerId whose
source JSON differs (e.g. in whitespace) but parses and canonicalizes to
identical bytes produce the same storage filename.  The filename embeds
the providerId verbatim, so it is not invariant under providerId casing
(see the counterexample). -/
theorem C2_amended_filename (env : Env) (pid : String) (raw1 raw2 : String) (p1 p2 : JVal)
    (_h1 : env.jsonParse raw1 = .ok p1) (_h2 : env.jsonParse raw2 = .ok p2)
    (hmin : env.stringify p1 = env.stringify p2) :
    storageFilename env pid (env.stringify p1) = storageFilename env pid (env.stringify p2) := by
  rw [hmin]

/-- Witness for the amended C2: two different source bodies parse to
different payloads with the same canonical form and get the same filename. -/
theorem C2_amended_witness :
    env2c.jsonParse "D" = .ok (.obj [("preview", .str "https://x/a.json")])
    ∧ env2c.jsonParse "B" = .ok (.num 1)
    ∧ storageFilename env2c "abc" (env2c.stringify (.obj [("preview", .str "https://x/a.json")]))
        = storageFilename env2c "abc" (env2c.stringify (.num 1)) :=
  ⟨rfl, rfl, C2_amended_filename env2c "abc" "D" "B" _ _ rfl rfl rfl⟩

end LottieAdapter
